import Mathlib

/-!
Shallow embedding of `src/dynamoDB/boto3_repository.py` (class `DynamoDbRepository`)
together with a model of the external DynamoDB store client it delegates to.

The repository class itself is stateless: every method wraps one call to the
bound table handle in a try/except that logs a message and re-raises the
store's `ClientError`.  The embedding makes the store state (the table
contents) and the outcome of the store call explicit parameters, and returns
the repository's result as an `Except`, the table state after the call, and
the list of messages passed to `logger.error`.
-/

namespace DynamoDbRepository

/-- DynamoDB attribute values: a dynamic union of strings, numbers, booleans,
binary blobs, lists and nested maps (spec section 3's Item value type). -/
inductive Value where
  | str : String → Value
  | num : Int → Value
  | boolean : Bool → Value
  | binary : List Nat → Value
  | list : List Value → Value
  | map : List (String × Value) → Value

/-- An item is a mapping from field names to values, as a Python dict is:
an association list of string keys and attribute values. -/
abbrev Item := List (String × Value)

/-- The contents of one table: the items held by the store, in the store's
scan order.  The invariant (spec section 3) is that every item carries a
string attribute named id, unique across the table. -/
abbrev TableState := List Item

/-- Messages emitted through `logger.error`. -/
abbrev Log := List String

mutual

/-- Rendering of one attribute value, standing in for Python's `repr` when an
item is interpolated into an f-string log message. -/
def valueStr : Value → String
  | .str s => s
  | .num n => toString n
  | .boolean b => toString b
  | .binary bs => toString bs
  | .list l => "[" ++ valueListStr l ++ "]"
  | .map m => "\x7b" ++ valuePairsStr m ++ "\x7d"

/-- Rendering of a list of values, comma separated. -/
def valueListStr : List Value → String
  | [] => ""
  | [v] => valueStr v
  | v :: vs => valueStr v ++ ", " ++ valueListStr vs

/-- Rendering of the key/value pairs of a nested map, comma separated. -/
def valuePairsStr : List (String × Value) → String
  | [] => ""
  | [(k, v)] => k ++ ": " ++ valueStr v
  | (k, v) :: ps => k ++ ": " ++ valueStr v ++ ", " ++ valuePairsStr ps

end

/-- Rendering of a whole item, standing in for Python's `repr` of the dict. -/
def itemStr (item : Item) : String := "\x7b" ++ valuePairsStr item ++ "\x7d"

/-- Dictionary lookup of a field in an item (`item.get(k)` / `item[k]`). -/
def getAttr : Item → String → Option Value
  | [], _ => none
  | (k', v) :: rest, k => if k' = k then some v else getAttr rest k

/-- Dictionary assignment of a field in an item (`item[k] = v`): replaces the
binding if the key is present, appends it otherwise. -/
def setAttr : Item → String → Value → Item
  | [], k, v => [(k, v)]
  | (k', w) :: rest, k, v => if k' = k then (k, v) :: rest else (k', w) :: setAttr rest k v

/-- The primary key of an item: the value of its string attribute id. -/
def itemId (item : Item) : Option String :=
  match getAttr item "id" with
  | some (Value.str s) => some s
  | _ => none

/-- The code and message carried by a botocore `ClientError`
(`err.response['Error']['Code']` and `err.response['Error']['Message']`). -/
structure ClientErrorInfo where
  code : String
  message : String

/-- The failures a repository method can signal to its caller: a re-raised
`ClientError` from the store, or the exception raised locally by
`find_by_id` when the lookup came back empty (line 77 of the source). -/
inductive RepoError where
  | clientError : ClientErrorInfo → RepoError
  | notFound : RepoError

/-- Outcome of the store call a method performs: the call either goes
through, or the client raises a `ClientError` carrying a code and message. -/
inductive StoreOutcome where
  | ok : StoreOutcome
  | fail : ClientErrorInfo → StoreOutcome

/-- The error the store reports when a conditional update's condition does
not hold at execution time. -/
def conditionalCheckFailed : ClientErrorInfo :=
  { code := "ConditionalCheckFailedException"
    message := "The conditional request failed" }

/-- Condition expressions built with `boto3.dynamodb.conditions`:
`Attr(name).exists()`, `Attr(name).eq(v)`, and `And`. -/
inductive Cond where
  | attrExists : String → Cond
  | attrEq : String → Value → Cond
  | and : Cond → Cond → Cond

/-- Modelled from the spec: the store's put-item semantics (section 6's
"put-item" of the black-box table client) — writes the item unconditionally,
overwriting any existing item with the same id. -/
def putItem (st : TableState) (item : Item) : TableState :=
  match st with
  | [] => [item]
  | it :: rest => if itemId it = itemId item then item :: rest else it :: putItem rest item

/-- Modelled from the spec: the store's get-item-by-key semantics — returns
the item whose id attribute equals the requested key, if any. -/
def getItem : TableState → String → Option Item
  | [], _ => none
  | it :: rest, i => if itemId it = some i then some it else getItem rest i

/-- Modelled from the spec: the store's delete-item-by-key semantics —
removes the item with the given id if present, and succeeds silently
otherwise (section 4.1: "matching the underlying store's default delete
semantics"). -/
def deleteItem : TableState → String → TableState
  | [], _ => []
  | it :: rest, i => if itemId it = some i then deleteItem rest i else it :: deleteItem rest i

/-- Modelled from the spec: one page of the store's paginated scan (section 3's
scan cursor) — returns up to `limit` items and a continuation cursor exactly
when more items remain; the opaque cursor is modelled as the remaining
suffix of the table. -/
def scanPage (rem : TableState) (limit : Nat) : List Item × Option TableState :=
  (rem.take limit, if rem.length ≤ limit then none else some (rem.drop limit))

/-- Evaluation of a condition expression against the item stored under the
given id; every attribute predicate is false when no such item exists. -/
def evalCond (st : TableState) (item_id : String) : Cond → Bool
  | .attrExists a =>
      match getItem st item_id with
      | some it => (getAttr it a).isSome
      | none => false
  | .attrEq a v =>
      match getItem st item_id with
      | some it =>
          match getAttr it a, v with
          | some (Value.str s), Value.str s' => s == s'
          | some (Value.num n), Value.num n' => n == n'
          | some (Value.boolean b), Value.boolean b' => b == b'
          | _, _ => false
      | none => false
  | .and c₁ c₂ => evalCond st item_id c₁ && evalCond st item_id c₂

/-- The SET micro-DSL of an `UpdateExpression`, modelled per spec section 9 as
a pass-through list of assignments: attribute token (possibly a reserved-word
placeholder such as "#S") paired with a value placeholder such as ":s". -/
abbrev UpdateExpr := List (String × String)

/-- Resolution of an attribute token through `ExpressionAttributeNames`:
placeholders listed there are remapped, any other token names the field
itself. -/
def resolveName (names : List (String × String)) (tok : String) : String :=
  match names with
  | [] => tok
  | (ph, real) :: rest => if ph = tok then real else resolveName rest tok

/-- Lookup of a value placeholder in `ExpressionAttributeValues`. -/
def resolveValue (vals : List (String × Value)) (ph : String) : Option Value :=
  match vals with
  | [] => none
  | (ph', v) :: rest => if ph' = ph then some v else resolveValue rest ph

/-- The concrete field assignments an update expression denotes once names
and value placeholders are substituted; assignments whose value placeholder
is unbound are dropped. -/
def resolveAssigns (ue : UpdateExpr) (names : List (String × String))
    (vals : List (String × Value)) : List (String × Value) :=
  match ue with
  | [] => []
  | (tok, ph) :: rest =>
      match resolveValue vals ph with
      | some v => (resolveName names tok, v) :: resolveAssigns rest names vals
      | none => resolveAssigns rest names vals

/-- Application of the resolved assignments to an item, one dictionary
assignment per SET clause. -/
def applyAssigns (assigns : List (String × Value)) (it : Item) : Item :=
  match assigns with
  | [] => it
  | (k, v) :: rest => applyAssigns rest (setAttr it k v)

/-- Replacement of the item stored under the given id. -/
def replaceItem (st : TableState) (item_id : String) (it' : Item) : TableState :=
  match st with
  | [] => []
  | it :: rest =>
      if itemId it = some item_id then it' :: rest
      else it :: replaceItem rest item_id it'

/-- Modelled from the spec: the store's conditional update-item semantics with
`ReturnValues="UPDATED_NEW"` (section 6's "conditional
update-item-with-expressions") — if the condition holds the assignments are
applied (creating the item when absent, as DynamoDB's update does without an
existence condition) and only the updated attributes are returned; if the
condition fails the whole operation fails with
`ConditionalCheckFailedException` and the table is untouched. -/
def updateItemStore (st : TableState) (item_id : String)
    (assigns : List (String × Value)) (cond : Cond) :
    Except ClientErrorInfo (TableState × List (String × Value)) :=
  if evalCond st item_id cond then
    match getItem st item_id with
    | some it => Except.ok (replaceItem st item_id (applyAssigns assigns it), assigns)
    | none => Except.ok (st ++ [applyAssigns assigns [("id", Value.str item_id)]], assigns)
  else Except.error conditionalCheckFailed

/-- Substring test on character lists: whether the needle occurs as a
contiguous segment of the haystack. -/
def listContainsSeg (needle : List Char) : List Char → Bool
  | [] => needle.isEmpty
  | c :: cs => needle.isPrefixOf (c :: cs) || listContainsSeg needle cs

/-- The store's `Attr(field).contains(value)` predicate on one attribute
value: substring match for string attributes, membership match for list
attributes, false for every other type. -/
def attrContains (fieldVal : Value) (v : String) : Bool :=
  match fieldVal with
  | .str s => listContainsSeg v.data s.data
  | .list l =>
      l.any (fun x =>
        match x with
        | .str s => s == v
        | _ => false)
  | _ => false

/-- Whether an item satisfies `Attr(field).contains(value)`: an item without
the field never matches. -/
def itemMatches (it : Item) (field value : String) : Bool :=
  match getAttr it field with
  | some fv => attrContains fv value
  | none => false

/-- The one log line an except-block emits:
`f"\x7bmsg\x7d\n\x7berror_code\x7d:\x7berror_msg\x7d"`. -/
def errLogLine (msg : String) (e : ClientErrorInfo) : String :=
  msg ++ "\n" ++ e.code ++ ":" ++ e.message

/-- Message of `insert_many`'s except block (source line 32). -/
def insertManyErrMsg (t : String) : String :=
  "Não foi possível inserir os dados na tabela (" ++ t ++ ")."

/-- Message of `insert`'s except block (source line 48). -/
def insertErrMsg (t : String) (item : Item) : String :=
  "Não foi possível inserir o item (" ++ itemStr item ++ ") na tabela (" ++ t ++ ")."

/-- Message of `find_by_id`'s except block (source line 64). -/
def findByIdErrMsg (t : String) : String :=
  "Não foi possível realizar a pesquisa na tabela (" ++ t ++ ")."

/-- Message logged by `find_by_id` when the lookup returns no item
(source line 75). -/
def notFoundMsg (t : String) (item_id : String) : String :=
  "Item (" ++ item_id ++ ") não encontrado na tabela (" ++ t ++ ")."

/-- Message of `update`'s except block (source line 122). -/
def updateErrMsg (t : String) (item_id : String) : String :=
  "Não foi possível atualizar o item (" ++ item_id ++ ") na tabela (" ++ t ++ ")."

/-- Message of `find_all`'s except block (source line 155). -/
def findAllErrMsg (t : String) : String :=
  "Não foi possível realizar o Scan na tabela (" ++ t ++ ")."

/-- Message of `delete`'s except block (source line 173). -/
def deleteErrMsg (t : String) (item_id : String) : String :=
  "Não foi possível deleter o item (" ++ item_id ++ ") na tabela (" ++ t ++ ")."

/-- Message of `search`'s except block (source line 189); unlike every other
method, it interpolates the field and the value but not the table name. -/
def searchErrMsg (field : String) (value : String) : String :=
  "Não foi possível pesquisar itens no campo (" ++ field ++ ") que contém (" ++ value ++ ")."

/-- `insert_many(data)` (source lines 17-37): batch-writes the items through
`Table.batch_writer`; on `ClientError` logs the table-scoped message and
re-raises. -/
def insert_many (t : String) (st : TableState) (data : List Item)
    (out : StoreOutcome) : Except RepoError Unit × TableState × Log :=
  match out with
  | .fail e => (.error (.clientError e), st, [errLogLine (insertManyErrMsg t) e])
  | .ok => (.ok (), data.foldl putItem st, [])

/-- `insert(item)` (source lines 39-53): unconditional `put_item`; on
`ClientError` logs the item- and table-scoped message and re-raises. -/
def insert (t : String) (st : TableState) (item : Item)
    (out : StoreOutcome) : Except RepoError Unit × TableState × Log :=
  match out with
  | .fail e => (.error (.clientError e), st, [errLogLine (insertErrMsg t item) e])
  | .ok => (.ok (), putItem st item, [])

/-- `find_by_id(item_id)` (source lines 55-77): `get_item` by primary key; on
`ClientError` logs and re-raises; when the response carries no (non-empty)
item, logs the id- and table-scoped message and raises locally. -/
def find_by_id (t : String) (st : TableState) (item_id : String)
    (out : StoreOutcome) : Except RepoError Item × Log :=
  match out with
  | .fail e => (.error (.clientError e), [errLogLine (findByIdErrMsg t) e])
  | .ok =>
      match getItem st item_id with
      | some item =>
          if item.isEmpty then (.error .notFound, [notFoundMsg t item_id])
          else (.ok item, [])
      | none => (.error .notFound, [notFoundMsg t item_id])

/-- The condition `update` sends to the store (source lines 106-111):
`Attr("id").exists()` alone when the caller supplied no condition, and
`And(Attr("id").exists(), condition_expression)` otherwise. -/
def effectiveCondition (condition_expression : Option Cond) : Cond :=
  let condition_required := Cond.attrExists "id"
  match condition_expression with
  | none => condition_required
  | some c => Cond.and condition_required c

/-- `update(item_id, update_expression, expression_attribute_values,
condition_expression, expression_attribute_names)` (source lines 79-129):
conditional `update_item` with `ReturnValues="UPDATED_NEW"`, the condition
being `effectiveCondition`; on success returns `response['Attributes']`; on
`ClientError` (conditional check failure included) logs the id- and
table-scoped message and re-raises.  In the source
`expression_attribute_names` defaults to the empty dict. -/
def update (t : String) (st : TableState) (item_id : String)
    (update_expression : UpdateExpr)
    (expression_attribute_values : List (String × Value))
    (condition_expression : Option Cond)
    (expression_attribute_names : List (String × String))
    (out : StoreOutcome) :
    Except RepoError (List (String × Value)) × TableState × Log :=
  match out with
  | .fail e => (.error (.clientError e), st, [errLogLine (updateErrMsg t item_id) e])
  | .ok =>
      match updateItemStore st item_id
          (resolveAssigns update_expression expression_attribute_names
            expression_attribute_values)
          (effectiveCondition condition_expression) with
      | .ok (st', attrs) => (.ok attrs, st', [])
      | .error e => (.error (.clientError e), st, [errLogLine (updateErrMsg t item_id) e])

/-- The scan loop of `find_all` (source lines 145-153): scan one page,
accumulate its items, and continue while a `LastEvaluatedKey` cursor is
returned.  The fuel bounds the number of pages; `find_all` passes enough
fuel for every table. -/
def findAllLoop (limit : Nat) : Nat → TableState → List Item
  | 0, _ => []
  | fuel + 1, rem =>
      match scanPage rem limit with
      | (page, none) => page
      | (page, some rest) => page ++ findAllLoop limit fuel rest

/-- `find_all(start_key=None, limit=100)` (source lines 131-162): full-table
scan accumulating pages.  Line 146 of the source reassigns `start_key = None`
before the loop, so the `start_key` parameter is never consulted and the scan
always begins at the start of the table.  On `ClientError` logs the
table-scoped message and re-raises, discarding any items already
accumulated. -/
def find_all (t : String) (st : TableState) (start_key : Option TableState)
    (limit : Nat) (out : StoreOutcome) : Except RepoError (List Item) × Log :=
  match out with
  | .fail e => (.error (.clientError e), [errLogLine (findAllErrMsg t) e])
  | .ok =>
      let start_key : Option TableState := none
      (.ok (findAllLoop limit (st.length + 1) (start_key.getD st)), [])

/-- `delete(item_id)` (source lines 164-177): unconditional `delete_item`; on
`ClientError` logs the id- and table-scoped message and re-raises. -/
def delete (t : String) (st : TableState) (item_id : String)
    (out : StoreOutcome) : Except RepoError Unit × TableState × Log :=
  match out with
  | .fail e => (.error (.clientError e), st, [errLogLine (deleteErrMsg t item_id) e])
  | .ok => (.ok (), deleteItem st item_id, [])

/-- `search(field, value)` (source lines 179-195): one
`query(FilterExpression=Attr(field).contains(value))` call, returning
`response['Items']` — the matching items of a single page (the store's page
bound is the `pageSize` parameter here), with no pagination follow-through;
on `ClientError` logs the field- and value-scoped message and re-raises. -/
def search (t : String) (st : TableState) (pageSize : Nat)
    (field : String) (value : String) (out : StoreOutcome) :
    Except RepoError (List Item) × Log :=
  match out with
  | .fail e => (.error (.clientError e), [errLogLine (searchErrMsg field value) e])
  | .ok => (.ok ((st.take pageSize).filter (fun it => itemMatches it field value)), [])

/-- A log entry mentions a piece of text when the text occurs contiguously in
the entry — the shape every f-string interpolation produces. -/
abbrev strMentions (entry piece : String) : Prop :=
  listContainsSeg piece.data entry.data = true

/-! ### Store-model lemmas -/

theorem getItem_putItem (st : TableState) (item : Item) (i : String)
    (h : itemId item = some i) : getItem (putItem st item) i = some item := by
  induction st with
  | nil => simp [putItem, getItem, h]
  | cons it rest ih =>
      by_cases hb : itemId it = itemId item
      · simp [putItem, hb, getItem, h]
      · have hbi : ¬ itemId it = some i := by rw [h] at hb; exact hb
        simp [putItem, hb, getItem, hbi, ih]

theorem getItem_deleteItem (st : TableState) (i : String) :
    getItem (deleteItem st i) i = none := by
  induction st with
  | nil => simp [deleteItem, getItem]
  | cons it rest ih =>
      by_cases hb : itemId it = some i
      · simp [deleteItem, hb, ih]
      · simp [deleteItem, hb, getItem, ih]

theorem deleteItem_idem (st : TableState) (i : String) :
    deleteItem (deleteItem st i) i = deleteItem st i := by
  induction st with
  | nil => simp [deleteItem]
  | cons it rest ih =>
      by_cases hb : itemId it = some i
      · simp [deleteItem, hb, ih]
      · simp [deleteItem, hb, ih]

theorem getAttr_setAttr_ne (it : Item) (k k' : String) (v : Value)
    (h : ¬ k' = k) : getAttr (setAttr it k' v) k = getAttr it k := by
  induction it with
  | nil => simp [setAttr, getAttr, h]
  | cons p rest ih =>
      obtain ⟨a, w⟩ := p
      by_cases ha : a = k'
      · subst ha
        simp [setAttr, getAttr, h]
      · simp [setAttr, ha, getAttr, ih]

theorem getAttr_applyAssigns_notMem (assigns : List (String × Value)) (it : Item)
    (k : String) (hk : k ∉ assigns.map Prod.fst) :
    getAttr (applyAssigns assigns it) k = getAttr it k := by
  induction assigns generalizing it with
  | nil => simp [applyAssigns]
  | cons p rest ih =>
      obtain ⟨k', v⟩ := p
      simp only [List.map_cons, List.mem_cons, not_or] at hk
      rw [applyAssigns]
      rw [ih (setAttr it k' v) hk.2]
      exact getAttr_setAttr_ne it k k' v (fun he => hk.1 he.symm)

theorem findAllLoop_complete (limit : Nat) (hl : 1 ≤ limit) :
    ∀ fuel rem, rem.length < fuel → findAllLoop limit fuel rem = rem := by
  intro fuel
  induction fuel with
  | zero => intro rem h; exact absurd h (Nat.not_lt_zero _)
  | succ n ih =>
      intro rem h
      by_cases hle : rem.length ≤ limit
      · simp [findAllLoop, scanPage, hle, List.take_of_length_le]
      · have hlen : (rem.drop limit).length < n := by
          rw [List.length_drop]
          omega
        simp [findAllLoop, scanPage, hle, ih (rem.drop limit) hlen]

theorem evalCond_effective_absent (st : TableState) (i : String)
    (ce : Option Cond) (h : getItem st i = none) :
    evalCond st i (effectiveCondition ce) = false := by
  cases ce with
  | none => simp [effectiveCondition, evalCond, h]
  | some c => simp [effectiveCondition, evalCond, h]

theorem isPrefixOf_append_self (l r : List Char) : l.isPrefixOf (l ++ r) = true := by
  induction l with
  | nil => simp [List.isPrefixOf]
  | cons a as ih => simp [List.isPrefixOf, ih]

theorem containsSeg_nil (l : List Char) : listContainsSeg [] l = true := by
  cases l <;> simp [listContainsSeg, List.isPrefixOf]

theorem containsSeg_append3 (pre mid suf : List Char) :
    listContainsSeg mid (pre ++ (mid ++ suf)) = true := by
  induction pre with
  | nil =>
      cases mid with
      | nil => simpa using containsSeg_nil suf
      | cons m ms =>
          have h := isPrefixOf_append_self (m :: ms) suf
          simp only [List.cons_append] at h
          simp [listContainsSeg, h]
  | cons c cs ih => simp [listContainsSeg, ih]

theorem strMentions_of_data (entry piece : String) (pre suf : List Char)
    (h : entry.data = pre ++ (piece.data ++ suf)) : strMentions entry piece := by
  unfold strMentions
  rw [h]
  exact containsSeg_append3 pre piece.data suf

theorem strMentions_table (P t : String) (e : ClientErrorInfo) :
    strMentions (errLogLine (P ++ t ++ ").") e) t := by
  apply strMentions_of_data _ _ P.data
    ((")." ++ "\n" ++ e.code ++ ":" ++ e.message).data)
  simp [errLogLine]

theorem strMentions_code (m : String) (e : ClientErrorInfo) :
    strMentions (errLogLine m e) e.code := by
  apply strMentions_of_data _ _ (m ++ "\n").data ((":" ++ e.message).data)
  simp [errLogLine]

theorem strMentions_errtext (m : String) (e : ClientErrorInfo) :
    strMentions (errLogLine m e) e.message := by
  apply strMentions_of_data _ _ (m ++ "\n" ++ e.code ++ ":").data []
  simp [errLogLine]

theorem strMentions_search_field (f v : String) (e : ClientErrorInfo) :
    strMentions (errLogLine (searchErrMsg f v) e) f := by
  apply strMentions_of_data _ _ ("Não foi possível pesquisar itens no campo (").data
    ((") que contém (" ++ v ++ ")." ++ "\n" ++ e.code ++ ":" ++ e.message).data)
  simp [errLogLine, searchErrMsg]

/-! ### Claim theorems -/

/-- C1: for every item written with `insert` and then read with `find_by_id`
using the same id, `find_by_id` returns an item equal to the item that was
written (round-trip of insert followed by point lookup). -/
theorem insert_find_by_id_roundtrip (t : String) (st : TableState) (item : Item)
    (i : String) (h : getAttr item "id" = some (Value.str i)) :
    (find_by_id t (insert t st item StoreOutcome.ok).2.1 i StoreOutcome.ok).1
      = Except.ok item := by
  have hid : itemId item = some i := by simp [itemId, h]
  have hget : getItem (putItem st item) i = some item := getItem_putItem st item i hid
  have hne : item.isEmpty = false := by
    cases item with
    | nil => simp [getAttr] at h
    | cons a l => rfl
  simp [insert, find_by_id, hget, hne]

/-- Witness for C1: the spec section 8 example — inserting
`{"id": "u1", "status": "active"}` and reading id `u1` returns the item. -/
theorem insert_find_by_id_roundtrip_witness :
    (find_by_id "tbl"
        (insert "tbl" []
          [("id", Value.str "u1"), ("status", Value.str "active")]
          StoreOutcome.ok).2.1
        "u1" StoreOutcome.ok).1
      = Except.ok [("id", Value.str "u1"), ("status", Value.str "active")] :=
  insert_find_by_id_roundtrip "tbl" []
    [("id", Value.str "u1"), ("status", Value.str "active")] "u1" rfl

/-- C2: for every id that was never written or has been deleted, `find_by_id`
signals its not-found error to the caller — an observable failure carrying
the id- and table-scoped log message, never a successful result — and the
same holds immediately after a `delete` of that id. -/
theorem find_by_id_missing_raises (t : String) (st st' : TableState)
    (i : String) (item : Item) (h : getItem st i = none) :
    (find_by_id t st i StoreOutcome.ok).1 = Except.error RepoError.notFound
    ∧ (find_by_id t st i StoreOutcome.ok).2 = [notFoundMsg t i]
    ∧ (find_by_id t st i StoreOutcome.ok).1 ≠ Except.ok item
    ∧ (find_by_id t (delete t st' i StoreOutcome.ok).2.1 i StoreOutcome.ok).1
        = Except.error RepoError.notFound := by
  refine ⟨by simp [find_by_id, h], by simp [find_by_id, h], by simp [find_by_id, h], ?_⟩
  have hd : getItem (delete t st' i StoreOutcome.ok).2.1 i = none :=
    getItem_deleteItem st' i
  simp [find_by_id, hd]

/-- Witness for C2: looking up id `u1` in an empty table, and after deleting
`u1` from a table holding it, both signal the not-found error. -/
theorem find_by_id_missing_raises_witness :
    (find_by_id "tbl" ([] : TableState) "u1" StoreOutcome.ok).1
        = Except.error RepoError.notFound
    ∧ (find_by_id "tbl" ([] : TableState) "u1" StoreOutcome.ok).2
        = [notFoundMsg "tbl" "u1"]
    ∧ (find_by_id "tbl" ([] : TableState) "u1" StoreOutcome.ok).1
        ≠ Except.ok [("id", Value.str "u1")]
    ∧ (find_by_id "tbl"
          (delete "tbl" [[("id", Value.str "u1")]] "u1" StoreOutcome.ok).2.1
          "u1" StoreOutcome.ok).1
        = Except.error RepoError.notFound :=
  find_by_id_missing_raises "tbl" [] [[("id", Value.str "u1")]] "u1"
    [("id", Value.str "u1")] rfl

/-- C3: the condition `update` sends to the store is the conjunction of the
existence check on the given id and the caller-supplied condition when one is
supplied, and exactly the existence check alone when none is given — both as
the expression built and under the store's evaluation of conditions. -/
theorem update_condition_conjunction (c : Cond) (st : TableState) (i : String) :
    effectiveCondition (some c) = Cond.and (Cond.attrExists "id") c
    ∧ effectiveCondition none = Cond.attrExists "id"
    ∧ evalCond st i (effectiveCondition (some c))
        = (evalCond st i (Cond.attrExists "id") && evalCond st i c)
    ∧ evalCond st i (effectiveCondition none)
        = evalCond st i (Cond.attrExists "id") :=
  ⟨rfl, rfl, rfl, rfl⟩

/-- C8: `delete` is idempotent — it always succeeds without logging, the
resulting table holds no item with the deleted id, and a second delete of the
same id succeeds and leaves the table exactly as the first left it. -/
theorem delete_idempotent_ok (t : String) (st : TableState) (i : String) :
    (delete t st i StoreOutcome.ok).1 = Except.ok ()
    ∧ (delete t st i StoreOutcome.ok).2.2 = []
    ∧ getItem (delete t st i StoreOutcome.ok).2.1 i = none
    ∧ (delete t (delete t st i StoreOutcome.ok).2.1 i StoreOutcome.ok).1
        = Except.ok ()
    ∧ (delete t (delete t st i StoreOutcome.ok).2.1 i StoreOutcome.ok).2.1
        = (delete t st i StoreOutcome.ok).2.1 := by
  refine ⟨rfl, rfl, getItem_deleteItem st i, rfl, ?_⟩
  show deleteItem (deleteItem st i) i = deleteItem st i
  exact deleteItem_idem st i

/-- C10: `find_all` ignores its `start_key` parameter — for every table
state, limit and store outcome, the result is the one obtained with
`start_key = None`, because the source reassigns `start_key = None` before
its loop and the scan always starts at the beginning of the table. -/
theorem find_all_ignores_start_key (t : String) (st : TableState)
    (sk : Option TableState) (limit : Nat) (out : StoreOutcome) :
    find_all t st sk limit out = find_all t st none limit out := rfl

/-- C4: for every table state with more items than one page's limit,
`find_all` follows the continuation cursor until it is absent and returns the
whole table as one accumulated sequence — equal to the table's contents, so
its length is the total item count, with no duplicates and no omissions. -/
theorem find_all_paginates_completely (t : String) (st : TableState)
    (sk : Option TableState) (limit : Nat) (h1 : 1 ≤ limit)
    (h2 : limit < st.length) :
    (find_all t st sk limit StoreOutcome.ok).1 = Except.ok st
    ∧ (findAllLoop limit (st.length + 1) st).length = st.length
    ∧ (find_all t st sk limit StoreOutcome.ok).2 = [] := by
  have hc : findAllLoop limit (st.length + 1) st = st :=
    findAllLoop_complete limit h1 (st.length + 1) st (by omega)
  refine ⟨?_, by rw [hc], rfl⟩
  simp [find_all, hc]

/-- Witness for C4: a three-item table scanned with a page limit of one comes
back whole. -/
theorem find_all_paginates_completely_witness :
    (find_all "tbl"
        [[("id", Value.str "a")], [("id", Value.str "b")], [("id", Value.str "c")]]
        none 1 StoreOutcome.ok).1
      = Except.ok
          [[("id", Value.str "a")], [("id", Value.str "b")], [("id", Value.str "c")]]
    ∧ (findAllLoop 1 4
          [[("id", Value.str "a")], [("id", Value.str "b")], [("id", Value.str "c")]]).length
        = 3
    ∧ (find_all "tbl"
          [[("id", Value.str "a")], [("id", Value.str "b")], [("id", Value.str "c")]]
          none 1 StoreOutcome.ok).2 = [] :=
  find_all_paginates_completely "tbl"
    [[("id", Value.str "a")], [("id", Value.str "b")], [("id", Value.str "c")]]
    none 1 (by decide) (by decide)

/-- C5: `search(field, value)` returns exactly the items of a single-page
result set whose named field contains the value (substring match for string
fields, membership match for list fields), excludes every item where the
field is absent or does not contain it, and never reaches beyond the one
page it queried. -/
theorem search_filters_one_page (t : String) (st : TableState) (p : Nat)
    (f v : String) :
    (search t st p f v StoreOutcome.ok).1
        = Except.ok ((st.take p).filter (fun it => itemMatches it f v))
    ∧ (∀ x : Item,
        x ∈ (st.take p).filter (fun it => itemMatches it f v)
          ↔ x ∈ st.take p ∧ itemMatches x f v = true) :=
  ⟨rfl, fun x => List.mem_filter⟩

/-- C6: for every id not present in the table, `update` on that id fails with
the store's condition-failure error, logs it, leaves the table state
unchanged, and never creates the item. -/
theorem update_missing_id_fails (t : String) (st : TableState) (i : String)
    (ue : UpdateExpr) (vals : List (String × Value))
    (names : List (String × String)) (ce : Option Cond)
    (h : getItem st i = none) :
    (update t st i ue vals ce names StoreOutcome.ok).1
        = Except.error (RepoError.clientError conditionalCheckFailed)
    ∧ (update t st i ue vals ce names StoreOutcome.ok).2.1 = st
    ∧ getItem (update t st i ue vals ce names StoreOutcome.ok).2.1 i = none
    ∧ (update t st i ue vals ce names StoreOutcome.ok).2.2
        = [errLogLine (updateErrMsg t i) conditionalCheckFailed] := by
  have hc : evalCond st i (effectiveCondition ce) = false :=
    evalCond_effective_absent st i ce h
  refine ⟨?_, ?_, ?_, ?_⟩ <;> simp [update, updateItemStore, hc, h]

/-- Witness for C6: updating id `u1` in an empty table fails with the
condition-failure error and writes nothing. -/
theorem update_missing_id_fails_witness :
    (update "tbl" [] "u1" [("status", ":s")] [(":s", Value.str "x")] none []
        StoreOutcome.ok).1
        = Except.error (RepoError.clientError conditionalCheckFailed)
    ∧ (update "tbl" [] "u1" [("status", ":s")] [(":s", Value.str "x")] none []
          StoreOutcome.ok).2.1 = []
    ∧ getItem
          (update "tbl" [] "u1" [("status", ":s")] [(":s", Value.str "x")] none []
            StoreOutcome.ok).2.1 "u1" = none
    ∧ (update "tbl" [] "u1" [("status", ":s")] [(":s", Value.str "x")] none []
          StoreOutcome.ok).2.2
        = [errLogLine (updateErrMsg "tbl" "u1") conditionalCheckFailed] :=
  update_missing_id_fails "tbl" [] "u1" [("status", ":s")] [(":s", Value.str "x")]
    [] none rfl

/-- C7: for every successful call to `update`, the returned value consists of
exactly the attributes the update expression assigned — not the whole item —
and every field the expression did not assign is left unchanged in the stored
item. -/
theorem update_returns_only_changed (t : String) (st : TableState) (i : String)
    (ue : UpdateExpr) (vals : List (String × Value))
    (names : List (String × String)) (ce : Option Cond) (oldIt : Item)
    (k : String) (hfound : getItem st i = some oldIt)
    (hcond : evalCond st i (effectiveCondition ce) = true)
    (hk : k ∉ (resolveAssigns ue names vals).map Prod.fst) :
    (update t st i ue vals ce names StoreOutcome.ok).1
        = Except.ok (resolveAssigns ue names vals)
    ∧ (update t st i ue vals ce names StoreOutcome.ok).2.1
        = replaceItem st i (applyAssigns (resolveAssigns ue names vals) oldIt)
    ∧ getAttr (applyAssigns (resolveAssigns ue names vals) oldIt) k
        = getAttr oldIt k := by
  refine ⟨?_, ?_, getAttr_applyAssigns_notMem _ oldIt k hk⟩ <;>
    simp [update, updateItemStore, hcond, hfound]

/-- Witness for C7: setting `status` (through the `#S` placeholder) on an
item with fields `id`, `status` and `name` returns only the new `status`
attribute and leaves `name` untouched. -/
theorem update_returns_only_changed_witness :
    (update "tbl"
        [[("id", Value.str "u1"), ("status", Value.str "old"), ("name", Value.str "bob")]]
        "u1" [("#S", ":s")] [(":s", Value.str "active")] none [("#S", "status")]
        StoreOutcome.ok).1
        = Except.ok (resolveAssigns [("#S", ":s")] [("#S", "status")]
            [(":s", Value.str "active")])
    ∧ (update "tbl"
          [[("id", Value.str "u1"), ("status", Value.str "old"), ("name", Value.str "bob")]]
          "u1" [("#S", ":s")] [(":s", Value.str "active")] none [("#S", "status")]
          StoreOutcome.ok).2.1
        = replaceItem
            [[("id", Value.str "u1"), ("status", Value.str "old"), ("name", Value.str "bob")]]
            "u1"
            (applyAssigns
              (resolveAssigns [("#S", ":s")] [("#S", "status")] [(":s", Value.str "active")])
              [("id", Value.str "u1"), ("status", Value.str "old"), ("name", Value.str "bob")])
    ∧ getAttr
          (applyAssigns
            (resolveAssigns [("#S", ":s")] [("#S", "status")] [(":s", Value.str "active")])
            [("id", Value.str "u1"), ("status", Value.str "old"), ("name", Value.str "bob")])
          "name"
        = getAttr
            [("id", Value.str "u1"), ("status", Value.str "old"), ("name", Value.str "bob")]
            "name" :=
  update_returns_only_changed "tbl"
    [[("id", Value.str "u1"), ("status", Value.str "old"), ("name", Value.str "bob")]]
    "u1" [("#S", ":s")] [(":s", Value.str "active")] [("#S", "status")] none
    [("id", Value.str "u1"), ("status", Value.str "old"), ("name", Value.str "bob")]
    "name" rfl rfl (by decide)

/-- Counterexample to C9 as stated: `search`'s except block is an operation
of the repository, yet on a store-reported error its one log entry — built
from the field, the value and the store's code and message — does not
contain the table name (here "users"), so the message is not
table-scoped. -/
theorem search_error_log_omits_table :
    (search "users" [] 100 "status" "abc"
        (StoreOutcome.fail { code := "ThrottlingException", message := "Rate exceeded" })).2
      = [errLogLine (searchErrMsg "status" "abc")
          { code := "ThrottlingException", message := "Rate exceeded" }]
    ∧ ¬ strMentions
        (errLogLine (searchErrMsg "status" "abc")
          { code := "ThrottlingException", message := "Rate exceeded" })
        "users" :=
  ⟨rfl, by decide⟩

/-- C9 as amended: for every operation and every store-reported error, the
operation logs exactly one message carrying the store's code and message and
propagates the error to the caller unchanged — no operation swallows an
error or returns a partial or default value in place of failure; every
operation except `search` scopes that message to the table name, while
`search`'s message names the queried field and value but not the table. -/
theorem error_logging_and_propagation (t i f v : String) (st : TableState)
    (data : List Item) (item : Item) (sk : Option TableState) (limit p : Nat)
    (ue : UpdateExpr) (vals : List (String × Value))
    (names : List (String × String)) (ce : Option Cond) (e : ClientErrorInfo) :
    (insert_many t st data (StoreOutcome.fail e)).1
        = Except.error (RepoError.clientError e)
    ∧ (insert_many t st data (StoreOutcome.fail e)).2.2
        = [errLogLine (insertManyErrMsg t) e]
    ∧ strMentions (errLogLine (insertManyErrMsg t) e) t
    ∧ (insert t st item (StoreOutcome.fail e)).1
        = Except.error (RepoError.clientError e)
    ∧ (insert t st item (StoreOutcome.fail e)).2.2
        = [errLogLine (insertErrMsg t item) e]
    ∧ strMentions (errLogLine (insertErrMsg t item) e) t
    ∧ (find_by_id t st i (StoreOutcome.fail e)).1
        = Except.error (RepoError.clientError e)
    ∧ (find_by_id t st i (StoreOutcome.fail e)).2
        = [errLogLine (findByIdErrMsg t) e]
    ∧ strMentions (errLogLine (findByIdErrMsg t) e) t
    ∧ (update t st i ue vals ce names (StoreOutcome.fail e)).1
        = Except.error (RepoError.clientError e)
    ∧ (update t st i ue vals ce names (StoreOutcome.fail e)).2.1 = st
    ∧ (update t st i ue vals ce names (StoreOutcome.fail e)).2.2
        = [errLogLine (updateErrMsg t i) e]
    ∧ strMentions (errLogLine (updateErrMsg t i) e) t
    ∧ (find_all t st sk limit (StoreOutcome.fail e)).1
        = Except.error (RepoError.clientError e)
    ∧ (find_all t st sk limit (StoreOutcome.fail e)).2
        = [errLogLine (findAllErrMsg t) e]
    ∧ strMentions (errLogLine (findAllErrMsg t) e) t
    ∧ (delete t st i (StoreOutcome.fail e)).1
        = Except.error (RepoError.clientError e)
    ∧ (delete t st i (StoreOutcome.fail e)).2.1 = st
    ∧ (delete t st i (StoreOutcome.fail e)).2.2
        = [errLogLine (deleteErrMsg t i) e]
    ∧ strMentions (errLogLine (deleteErrMsg t i) e) t
    ∧ (search t st p f v (StoreOutcome.fail e)).1
        = Except.error (RepoError.clientError e)
    ∧ (search t st p f v (StoreOutcome.fail e)).2
        = [errLogLine (searchErrMsg f v) e]
    ∧ strMentions (errLogLine (searchErrMsg f v) e) f
    ∧ strMentions (errLogLine (searchErrMsg f v) e) v
    ∧ (∀ m : String,
        strMentions (errLogLine m e) e.code ∧ strMentions (errLogLine m e) e.message) :=
  ⟨rfl, rfl,
    strMentions_table "Não foi possível inserir os dados na tabela (" t e,
    rfl, rfl,
    strMentions_table
      ("Não foi possível inserir o item (" ++ itemStr item ++ ") na tabela (") t e,
    rfl, rfl,
    strMentions_table "Não foi possível realizar a pesquisa na tabela (" t e,
    rfl, rfl, rfl,
    strMentions_table
      ("Não foi possível atualizar o item (" ++ i ++ ") na tabela (") t e,
    rfl, rfl,
    strMentions_table "Não foi possível realizar o Scan na tabela (" t e,
    rfl, rfl, rfl,
    strMentions_table
      ("Não foi possível deleter o item (" ++ i ++ ") na tabela (") t e,
    rfl, rfl,
    strMentions_search_field f v e,
    strMentions_table
      ("Não foi possível pesquisar itens no campo (" ++ f ++ ") que contém (") v e,
    fun m => ⟨strMentions_code m e, strMentions_errtext m e⟩⟩

end DynamoDbRepository
